import Mathlib

/-
A formal model of the AMD (answering machine detection) strategy core of
this repository: the four detection adapters (Twilio native, Jambonz,
HuggingFace ML, Gemini LLM), their webhook/event parsers, the audio and
streaming entry points, configuration handling, and the strategy factory,
together with theorems checking the specified contract against the model.

Remote collaborators (fetch, JSON response bodies, stream reads) are
represented by explicit outcome values fed to the functions, mirroring how
the TypeScript adapters consume them. JavaScript falsy-default idioms
(x || d) are modelled by the js* helpers below. Wall-clock time is passed
in as an explicit parameter. All numbers are modelled as rationals.
-/

/-- The outcome union of AmdDetectionResult.result in amd-strategies.ts. -/
inductive AmdOutcome where
  | human
  | machine
  | voicemail
  | fax
  | unknown
  | undecided
deriving DecidableEq, Repr

/-- A value stored in the open metadata map of a detection result. -/
inductive MetaValue where
  | str (s : String)
  | num (q : Rat)
  | missing
deriving DecidableEq, Repr

/-- AmdDetectionResult of amd-strategies.ts: result, confidence,
detectionTimeMs and the metadata map (modelled as an association list). -/
structure AmdDetectionResult where
  result : AmdOutcome
  confidence : Rat
  detectionTimeMs : Nat
  metadata : List (String × MetaValue)
deriving DecidableEq, Repr

/-- Outcome of a JavaScript fetch call: either the promise rejected
(network error or abort timeout), or a response arrived with an ok flag,
a status text and a body of type alpha. -/
inductive FetchOutcome (α : Type) where
  | networkError (msg : String)
  | response (ok : Bool) (statusText : String) (body : α)
deriving DecidableEq, Repr

/-- JavaScript (a || d) for an optional number: undefined and 0 are falsy. -/
def jsNum (a : Option Rat) (d : Rat) : Rat :=
  match a with
  | none => d
  | some x => if x = 0 then d else x

/-- JavaScript (a || d) for an optional natural (used for timestamps). -/
def jsNat (a : Option Nat) (d : Nat) : Nat :=
  match a with
  | none => d
  | some x => if x = 0 then d else x

/-- JavaScript (a || d) for an optional string: undefined and the empty
string are falsy. -/
def jsStrOr (a : Option String) (d : String) : String :=
  match a with
  | none => d
  | some s => if s = "" then d else s

/-- JavaScript (a || b) where both sides are optional strings. -/
def jsOrOptStr (a b : Option String) : Option String :=
  match a with
  | none => b
  | some s => if s = "" then b else some s

/-- JavaScript truthiness of an optional string. -/
def jsTruthy (a : Option String) : Bool :=
  match a with
  | none => false
  | some s => !(s = "")

/-- Lower-casing of a string, modelling String.prototype.toLowerCase. -/
def lowerStr (s : String) : String := String.mk (s.data.map Char.toLower)

/-- Boolean test that the first list is an initial segment of the second. -/
def prefixCheck : List Char → List Char → Bool
  | [], _ => true
  | _ :: _, [] => false
  | a :: as, b :: bs => a == b && prefixCheck as bs

/-- Boolean test that the first list occurs contiguously in the second. -/
def infixCheck : List Char → List Char → Bool
  | needle, [] => prefixCheck needle []
  | needle, h :: t => prefixCheck needle (h :: t) || infixCheck needle t

/-- String.prototype.includes: substring containment. -/
def strContains (hay needle : String) : Bool := infixCheck needle.data hay.data

/-- Wrap an optional number as a metadata value. -/
def optNum : Option Rat → MetaValue
  | none => MetaValue.missing
  | some q => MetaValue.num q

/-- Wrap an optional string as a metadata value. -/
def optStr : Option String → MetaValue
  | none => MetaValue.missing
  | some s => MetaValue.str s

/-- Boolean test that an Except value is a success. -/
def isOkE {α : Type} : Except String α → Bool
  | Except.ok _ => true
  | Except.error _ => false

/-- JSON body returned by the HuggingFace classifier service, as consumed
by HuggingFaceStrategy.processAudio: the fields data.label,
data.confidence, data.score and data.processingTime, each possibly absent. -/
structure HFResponse where
  label : Option String
  confidence : Option Rat
  score : Option Rat
  processingTime : Option Rat
deriving DecidableEq, Repr

/-- Body of a Gemini generateContent response after the optional-chained
text extraction (candidates[0].content.parts[0].text || empty string) and
the regex search for a structured block: either no block was found, the
block was not valid JSON, or it parsed with optional result, confidence
and reasoning fields. -/
inductive GeminiBody where
  | noJson (text : String)
  | badJson (text : String)
  | parsed (text : String) (result : Option String) (confidence : Option Rat)
      (reasoning : Option String)
deriving DecidableEq, Repr

/-- Body of the try block of HuggingFaceStrategy.processAudio
(huggingface.ts lines 38-79): throws on network error, non-ok response or
a missing label (data.label.toLowerCase() raises a TypeError), otherwise
applies the threshold decision rule to the label and score. -/
def hfDetectCore (threshold : Rat) (out : FetchOutcome HFResponse) :
    Except String (AmdOutcome × Rat × List (String × MetaValue)) :=
  match out with
  | FetchOutcome.networkError msg => Except.error msg
  | FetchOutcome.response ok statusText body =>
    if ok = false then Except.error ("HuggingFace service error: " ++ statusText)
    else
      match body.label with
      | none => Except.error "TypeError: cannot read properties of undefined"
      | some rawLabel =>
        let label := lowerStr rawLabel
        let confidence := jsNum body.confidence (jsNum body.score 0)
        let result :=
          if strContains label "voicemail" || strContains label "machine" then
            if threshold ≤ confidence then AmdOutcome.machine else AmdOutcome.undecided
          else if strContains label "human" || strContains label "person" then
            if threshold ≤ confidence then AmdOutcome.human else AmdOutcome.undecided
          else AmdOutcome.undecided
        Except.ok (result, confidence,
          [("modelLabel", MetaValue.str rawLabel),
           ("rawScore", optNum body.confidence),
           ("processingTime", optNum body.processingTime)])

/-- HuggingFaceStrategy.processAudio: the try/catch wrapper around
hfDetectCore; any thrown error becomes an unknown result with confidence 0
and the error message in metadata.error. -/
def HuggingFaceStrategy.processAudio (threshold : Rat) (audioBuffer : List Nat)
    (out : FetchOutcome HFResponse) (t : Nat) : AmdDetectionResult :=
  match hfDetectCore threshold out with
  | Except.ok (result, confidence, md) =>
    { result := result, confidence := confidence, detectionTimeMs := t, metadata := md }
  | Except.error e =>
    { result := AmdOutcome.unknown, confidence := 0, detectionTimeMs := t,
      metadata := [("error", MetaValue.str e)] }

/-- Body of the try block of GeminiStrategy.processAudio (gemini.ts lines
27-114): throws on network error, non-ok response, a response text with no
structured block, invalid JSON, or a missing result field; otherwise maps
the parsed result text fuzzily and defaults a falsy confidence to 0.7. -/
def geminiDetectCore (model : String) (out : FetchOutcome GeminiBody) :
    Except String (AmdOutcome × Rat × List (String × MetaValue)) :=
  match out with
  | FetchOutcome.networkError msg => Except.error msg
  | FetchOutcome.response ok statusText body =>
    if ok = false then Except.error ("Gemini API error: " ++ statusText)
    else
      match body with
      | GeminiBody.noJson _ => Except.error "Failed to parse Gemini response"
      | GeminiBody.badJson _ => Except.error "SyntaxError: unexpected token in JSON"
      | GeminiBody.parsed text result confidence reasoning =>
        match result with
        | none => Except.error "TypeError: cannot read properties of undefined"
        | some raw =>
          let resultLower := lowerStr raw
          let outcome :=
            if strContains resultLower "human" then AmdOutcome.human
            else if strContains resultLower "machine" || strContains resultLower "voicemail" then
              AmdOutcome.machine
            else AmdOutcome.undecided
          Except.ok (outcome, jsNum confidence 0.7,
            [("reasoning", optStr reasoning),
             ("rawResponse", MetaValue.str text),
             ("model", MetaValue.str model)])

/-- GeminiStrategy.processAudio: the try/catch wrapper around
geminiDetectCore; any thrown error becomes an unknown result with
confidence 0 and the error message in metadata.error. -/
def GeminiStrategy.processAudio (model : String) (audioBuffer : List Nat)
    (out : FetchOutcome GeminiBody) (t : Nat) : AmdDetectionResult :=
  match geminiDetectCore model out with
  | Except.ok (result, confidence, md) =>
    { result := result, confidence := confidence, detectionTimeMs := t, metadata := md }
  | Except.error e =>
    { result := AmdOutcome.unknown, confidence := 0, detectionTimeMs := t,
      metadata := [("error", MetaValue.str e)] }

/-- Recoverable-failure fixtures for the HuggingFace adapter: rejected
fetch, non-ok response, or a response whose label field is absent. -/
def hfIsFailure : FetchOutcome HFResponse → Bool
  | FetchOutcome.networkError _ => true
  | FetchOutcome.response ok _ body => !ok || body.label.isNone

/-- Recoverable-failure fixtures for the Gemini adapter: rejected fetch,
non-ok response, no structured block, invalid JSON, or a parsed block
whose result field is absent. -/
def geminiIsFailure : FetchOutcome GeminiBody → Bool
  | FetchOutcome.networkError _ => true
  | FetchOutcome.response ok _ body =>
    !ok ||
      (match body with
       | GeminiBody.parsed _ r _ _ => r.isNone
       | _ => true)

/-- The label-indicates-machine predicate of the specified ML decision
rule: the lower-cased label contains a voicemail or machine class. -/
def labelMachine (label : String) : Bool :=
  strContains (lowerStr label) "voicemail" || strContains (lowerStr label) "machine"

/-- The label-indicates-human predicate of the specified ML decision rule:
the lower-cased label contains a human or person class. -/
def labelHuman (label : String) : Bool :=
  strContains (lowerStr label) "human" || strContains (lowerStr label) "person"

lemma hf_processAudio_failure (threshold : Rat) (audioBuffer : List Nat)
    (out : FetchOutcome HFResponse) (t : Nat) (h : hfIsFailure out = true) :
    ∃ e, HuggingFaceStrategy.processAudio threshold audioBuffer out t =
      { result := AmdOutcome.unknown, confidence := 0, detectionTimeMs := t,
        metadata := [("error", MetaValue.str e)] } := by
  cases out with
  | networkError msg => exact ⟨msg, rfl⟩
  | response ok statusText body =>
    cases ok with
    | false =>
      exact ⟨"HuggingFace service error: " ++ statusText,
        by simp [HuggingFaceStrategy.processAudio, hfDetectCore]⟩
    | true =>
      obtain ⟨lbl, conf, sc, pt⟩ := body
      cases lbl with
      | none =>
        exact ⟨"TypeError: cannot read properties of undefined",
          by simp [HuggingFaceStrategy.processAudio, hfDetectCore]⟩
      | some s => simp [hfIsFailure] at h

lemma gemini_processAudio_failure (model : String) (audioBuffer : List Nat)
    (out : FetchOutcome GeminiBody) (t : Nat) (h : geminiIsFailure out = true) :
    ∃ e, GeminiStrategy.processAudio model audioBuffer out t =
      { result := AmdOutcome.unknown, confidence := 0, detectionTimeMs := t,
        metadata := [("error", MetaValue.str e)] } := by
  cases out with
  | networkError msg => exact ⟨msg, rfl⟩
  | response ok statusText body =>
    cases ok with
    | false =>
      exact ⟨"Gemini API error: " ++ statusText,
        by simp [GeminiStrategy.processAudio, geminiDetectCore]⟩
    | true =>
      cases body with
      | noJson text =>
        exact ⟨"Failed to parse Gemini response",
          by simp [GeminiStrategy.processAudio, geminiDetectCore]⟩
      | badJson text =>
        exact ⟨"SyntaxError: unexpected token in JSON",
          by simp [GeminiStrategy.processAudio, geminiDetectCore]⟩
      | parsed text r c reasoning =>
        cases r with
        | none =>
          exact ⟨"TypeError: cannot read properties of undefined",
            by simp [GeminiStrategy.processAudio, geminiDetectCore]⟩
        | some s => simp [geminiIsFailure] at h

lemma hf_rule (label statusText : String) (score threshold : Rat)
    (pt : Option Rat) (audioBuffer : List Nat) (t : Nat) :
    (HuggingFaceStrategy.processAudio threshold audioBuffer
        (FetchOutcome.response true statusText ⟨some label, none, some score, pt⟩) t).confidence
      = score
    ∧ (labelMachine label = true →
        (HuggingFaceStrategy.processAudio threshold audioBuffer
            (FetchOutcome.response true statusText ⟨some label, none, some score, pt⟩) t).result
          = (if threshold ≤ score then AmdOutcome.machine else AmdOutcome.undecided))
    ∧ (labelMachine label = false → labelHuman label = true →
        (HuggingFaceStrategy.processAudio threshold audioBuffer
            (FetchOutcome.response true statusText ⟨some label, none, some score, pt⟩) t).result
          = (if threshold ≤ score then AmdOutcome.human else AmdOutcome.undecided))
    ∧ (labelMachine label = false → labelHuman label = false →
        (HuggingFaceStrategy.processAudio threshold audioBuffer
            (FetchOutcome.response true statusText ⟨some label, none, some score, pt⟩) t).result
          = AmdOutcome.undecided) := by
  have hconf : jsNum none (jsNum (some score) 0) = score := by
    by_cases hs : score = 0 <;> simp [jsNum, hs]
  refine ⟨?_, ?_, ?_, ?_⟩
  · simp [HuggingFaceStrategy.processAudio, hfDetectCore, hconf]
  · intro hm
    simp only [labelMachine, Bool.or_eq_true] at hm
    simp [HuggingFaceStrategy.processAudio, hfDetectCore, hconf, hm]
  · intro hm hh
    simp only [labelMachine, Bool.or_eq_false_iff] at hm
    simp only [labelHuman, Bool.or_eq_true] at hh
    simp [HuggingFaceStrategy.processAudio, hfDetectCore, hconf, hm.1, hm.2, hh]
  · intro hm hh
    simp only [labelMachine, Bool.or_eq_false_iff] at hm
    simp only [labelHuman, Bool.or_eq_false_iff] at hh
    simp [HuggingFaceStrategy.processAudio, hfDetectCore, hconf, hm.1, hm.2, hh.1, hh.2]

/-- C1: for both audio-driven adapters (HuggingFace ML and Gemini LLM),
every recoverable failure during processAudio (network error or timeout,
non-ok HTTP response, missing or unparseable fields in the remote
response) does not raise: it yields a DetectionResult with result
unknown, confidence 0, and the causing error text in metadata.error. -/
theorem hf_gemini_recoverable_failures_unknown (threshold : Rat) (model : String)
    (audioBuffer : List Nat) (outH : FetchOutcome HFResponse)
    (outG : FetchOutcome GeminiBody) (t : Nat) :
    (hfIsFailure outH = true →
      ∃ e, HuggingFaceStrategy.processAudio threshold audioBuffer outH t =
        { result := AmdOutcome.unknown, confidence := 0, detectionTimeMs := t,
          metadata := [("error", MetaValue.str e)] })
    ∧ (geminiIsFailure outG = true →
      ∃ e, GeminiStrategy.processAudio model audioBuffer outG t =
        { result := AmdOutcome.unknown, confidence := 0, detectionTimeMs := t,
          metadata := [("error", MetaValue.str e)] }) :=
  ⟨hf_processAudio_failure threshold audioBuffer outH t,
   gemini_processAudio_failure model audioBuffer outG t⟩

theorem hf_gemini_recoverable_failures_unknown_witness :
    hfIsFailure (FetchOutcome.networkError "fetch timeout") = true
    ∧ (∃ e, HuggingFaceStrategy.processAudio 0.7 []
        (FetchOutcome.networkError "fetch timeout") 5 =
        { result := AmdOutcome.unknown, confidence := 0, detectionTimeMs := 5,
          metadata := [("error", MetaValue.str e)] })
    ∧ geminiIsFailure (FetchOutcome.networkError "fetch timeout") = true
    ∧ (∃ e, GeminiStrategy.processAudio "gemini-2.5-flash" []
        (FetchOutcome.networkError "fetch timeout") 5 =
        { result := AmdOutcome.unknown, confidence := 0, detectionTimeMs := 5,
          metadata := [("error", MetaValue.str e)] }) :=
  ⟨rfl,
   (hf_gemini_recoverable_failures_unknown 0.7 "gemini-2.5-flash" []
      (FetchOutcome.networkError "fetch timeout")
      (FetchOutcome.networkError "fetch timeout") 5).1 rfl,
   rfl,
   (hf_gemini_recoverable_failures_unknown 0.7 "gemini-2.5-flash" []
      (FetchOutcome.networkError "fetch timeout")
      (FetchOutcome.networkError "fetch timeout") 5).2 rfl⟩

/-- C2: the ML adapter decision rule on a successful response carrying a
label and a score. The returned confidence equals the remote score; a
machine/voicemail label gives machine when the score reaches the
threshold and undecided below it; a human/person label (not also a
machine label) gives human or undecided the same way; any other label
gives undecided. In particular label voicemail_detected with score 0.92
under threshold 0.7 gives machine with confidence 0.92, and the same
label with score 0.5 gives undecided. -/
theorem hf_ml_decision_rule (label statusText : String) (score threshold : Rat)
    (pt : Option Rat) (audioBuffer : List Nat) (t : Nat) :
    ((HuggingFaceStrategy.processAudio threshold audioBuffer
        (FetchOutcome.response true statusText ⟨some label, none, some score, pt⟩) t).confidence
      = score
    ∧ (labelMachine label = true →
        (HuggingFaceStrategy.processAudio threshold audioBuffer
            (FetchOutcome.response true statusText ⟨some label, none, some score, pt⟩) t).result
          = (if threshold ≤ score then AmdOutcome.machine else AmdOutcome.undecided))
    ∧ (labelMachine label = false → labelHuman label = true →
        (HuggingFaceStrategy.processAudio threshold audioBuffer
            (FetchOutcome.response true statusText ⟨some label, none, some score, pt⟩) t).result
          = (if threshold ≤ score then AmdOutcome.human else AmdOutcome.undecided))
    ∧ (labelMachine label = false → labelHuman label = false →
        (HuggingFaceStrategy.processAudio threshold audioBuffer
            (FetchOutcome.response true statusText ⟨some label, none, some score, pt⟩) t).result
          = AmdOutcome.undecided))
    ∧ (HuggingFaceStrategy.processAudio 0.7 audioBuffer
        (FetchOutcome.response true statusText ⟨some "voicemail_detected", none, some 0.92, pt⟩)
        t).result = AmdOutcome.machine
    ∧ (HuggingFaceStrategy.processAudio 0.7 audioBuffer
        (FetchOutcome.response true statusText ⟨some "voicemail_detected", none, some 0.92, pt⟩)
        t).confidence = 0.92
    ∧ (HuggingFaceStrategy.processAudio 0.7 audioBuffer
        (FetchOutcome.response true statusText ⟨some "voicemail_detected", none, some 0.5, pt⟩)
        t).result = AmdOutcome.undecided := by
  refine ⟨hf_rule label statusText score threshold pt audioBuffer t, ?_, ?_, ?_⟩
  · have h := (hf_rule "voicemail_detected" statusText 0.92 0.7 pt audioBuffer t).2.1
      (by decide)
    rw [h, if_pos (by norm_num : (0.7 : Rat) ≤ 0.92)]
  · exact (hf_rule "voicemail_detected" statusText 0.92 0.7 pt audioBuffer t).1
  · have h := (hf_rule "voicemail_detected" statusText 0.5 0.7 pt audioBuffer t).2.1
      (by decide)
    rw [h, if_neg (by norm_num : ¬ (0.7 : Rat) ≤ 0.5)]

theorem hf_ml_decision_rule_witness :
    labelMachine "voicemail_detected" = true
    ∧ (HuggingFaceStrategy.processAudio 0.7 []
        (FetchOutcome.response true "OK" ⟨some "voicemail_detected", none, some 0.92, none⟩)
        3).result = (if (0.7 : Rat) ≤ 0.92 then AmdOutcome.machine else AmdOutcome.undecided)
    ∧ labelMachine "live person" = false
    ∧ labelHuman "live person" = true
    ∧ (HuggingFaceStrategy.processAudio 0.7 []
        (FetchOutcome.response true "OK" ⟨some "live person", none, some 0.9, none⟩)
        3).result = (if (0.7 : Rat) ≤ 0.9 then AmdOutcome.human else AmdOutcome.undecided)
    ∧ labelMachine "silence" = false
    ∧ labelHuman "silence" = false
    ∧ (HuggingFaceStrategy.processAudio 0.7 []
        (FetchOutcome.response true "OK" ⟨some "silence", none, some 0.9, none⟩)
        3).result = AmdOutcome.undecided :=
  ⟨by decide,
   (hf_ml_decision_rule "voicemail_detected" "OK" 0.92 0.7 none [] 3).1.2.1 (by decide),
   by decide,
   by decide,
   (hf_ml_decision_rule "live person" "OK" 0.9 0.7 none [] 3).1.2.2.1 (by decide) (by decide),
   by decide,
   by decide,
   (hf_ml_decision_rule "silence" "OK" 0.9 0.7 none [] 3).1.2.2.2 (by decide) (by decide)⟩

/-- C10: the Gemini adapter applies the 0.7 confidence default to any
falsy parsed confidence, not only to a missing one: a well-formed
structured block whose confidence field is present but equal to 0 yields
a result with confidence 0.7, exactly as a block with no confidence
field does. -/
theorem gemini_falsy_confidence_default (model statusText text resStr : String)
    (reasoning : Option String) (audioBuffer : List Nat) (t : Nat) :
    (GeminiStrategy.processAudio model audioBuffer
        (FetchOutcome.response true statusText
          (GeminiBody.parsed text (some resStr) (some 0) reasoning)) t).confidence = 0.7
    ∧ (GeminiStrategy.processAudio model audioBuffer
        (FetchOutcome.response true statusText
          (GeminiBody.parsed text (some resStr) none reasoning)) t).confidence = 0.7 := by
  constructor
  · simp [GeminiStrategy.processAudio, geminiDetectCore, jsNum]
  · simp [GeminiStrategy.processAudio, geminiDetectCore, jsNum]

/-- C4 evaluated at a failing input: the adapters forward the remote
confidence value unclamped, so a remote response with confidence 1.5
(HuggingFace) or a parsed block with confidence 5 (Gemini) produces a
DetectionResult whose confidence lies outside the documented [0, 1]
range. -/
theorem confidence_range_violated :
    (HuggingFaceStrategy.processAudio 0.7 []
        (FetchOutcome.response true "OK" ⟨some "voicemail", some 1.5, none, none⟩)
        4).confidence = 1.5
    ∧ ¬ ((HuggingFaceStrategy.processAudio 0.7 []
        (FetchOutcome.response true "OK" ⟨some "voicemail", some 1.5, none, none⟩)
        4).confidence ≤ 1)
    ∧ (GeminiStrategy.processAudio "gemini-2.5-flash" []
        (FetchOutcome.response true "OK"
          (GeminiBody.parsed "raw" (some "machine") (some 5) none)) 4).confidence = 5
    ∧ ¬ ((GeminiStrategy.processAudio "gemini-2.5-flash" []
        (FetchOutcome.response true "OK"
          (GeminiBody.parsed "raw" (some "machine") (some 5) none)) 4).confidence ≤ 1) := by
  have h1 : (HuggingFaceStrategy.processAudio 0.7 []
      (FetchOutcome.response true "OK" ⟨some "voicemail", some 1.5, none, none⟩)
      4).confidence = 1.5 := by
    simp [HuggingFaceStrategy.processAudio, hfDetectCore, jsNum]
    norm_num
  have h2 : (GeminiStrategy.processAudio "gemini-2.5-flash" []
      (FetchOutcome.response true "OK"
        (GeminiBody.parsed "raw" (some "machine") (some 5) none)) 4).confidence = 5 := by
    simp [GeminiStrategy.processAudio, geminiDetectCore, jsNum]
  refine ⟨h1, ?_, h2, ?_⟩
  · rw [h1]; norm_num
  · rw [h2]; norm_num

/-- Webhook payload consumed by TwilioNativeStrategy.parseWebhookResult:
the AnsweredBy / AnsweringMachineDetection fields, the timestamp and the
CallDuration, each possibly absent. -/
structure TwilioWebhook where
  answeredBy : Option String
  answeringMachineDetection : Option String
  timestamp : Option Nat
  callDuration : Option Rat
deriving DecidableEq, Repr

/-- Event payload consumed by JambonzStrategy.parseWebhookEvent: the event
name, the timestamp, the word count and the speech duration. -/
structure JambonzEvent where
  event : Option String
  timestamp : Option Nat
  wordCount : Option Rat
  speechDurationMs : Option Rat
deriving DecidableEq, Repr

/-- TwilioNativeStrategy.parseWebhookResult (part_002 lines 51-89): reads
amdStatus as AnsweredBy || AnsweringMachineDetection and switches on it;
the unknown status and every unrecognized status fall to the default,
which yields undecided with confidence 0.5. -/
def TwilioNativeStrategy.parseWebhookResult (now : Nat) (w : TwilioWebhook) :
    AmdDetectionResult :=
  let startTime := jsNat w.timestamp now
  let amdStatus := jsOrOptStr w.answeredBy w.answeringMachineDetection
  let rc : AmdOutcome × Rat :=
    match amdStatus with
    | some "human" => (AmdOutcome.human, 0.8)
    | some "machine_start" => (AmdOutcome.machine, 0.85)
    | some "machine_end_beep" => (AmdOutcome.machine, 0.85)
    | some "machine_end_silence" => (AmdOutcome.machine, 0.85)
    | some "machine_end_other" => (AmdOutcome.machine, 0.85)
    | some "fax" => (AmdOutcome.fax, 0.9)
    | _ => (AmdOutcome.undecided, 0.5)
  { result := rc.1, confidence := rc.2, detectionTimeMs := now - startTime,
    metadata := [("twilioStatus", optStr amdStatus),
                 ("callDuration", optNum w.callDuration)] }

/-- JambonzStrategy.parseWebhookEvent (huggingface.ts lines 197-233):
switches on the event name; recognized events set result and confidence,
any other event keeps the initial confidence 0.75 and sets result to
unknown. -/
def JambonzStrategy.parseWebhookEvent (now : Nat) (e : JambonzEvent) :
    AmdDetectionResult :=
  let startTime := jsNat e.timestamp now
  let rc : AmdOutcome × Rat :=
    match e.event with
    | some "amd_human_detected" => (AmdOutcome.human, 0.85)
    | some "amd_machine_detected" => (AmdOutcome.machine, 0.88)
    | some "amd_decision_timeout" => (AmdOutcome.undecided, 0.5)
    | some "amd_tone_detected" => (AmdOutcome.fax, 0.9)
    | _ => (AmdOutcome.unknown, 0.75)
  { result := rc.1, confidence := rc.2, detectionTimeMs := now - startTime,
    metadata := [("jambonzEvent", optStr e.event),
                 ("wordCount", optNum e.wordCount),
                 ("speechDuration", optNum e.speechDurationMs)] }

/-- TwilioNativeStrategy.processAudio (part_002 lines 27-31): always
throws, since Twilio native AMD is handled via webhooks. -/
def TwilioNativeStrategy.processAudio (audioBuffer : List Nat) :
    Except String AmdDetectionResult :=
  Except.error "Twilio Native AMD processes via webhooks, not direct audio processing"

/-- JambonzStrategy.processAudio (huggingface.ts lines 167-170): always
throws, since Jambonz AMD is handled via SIP webhooks. -/
def JambonzStrategy.processAudio (audioBuffer : List Nat) :
    Except String AmdDetectionResult :=
  Except.error "Jambonz AMD processes via SIP webhooks, not direct audio processing"

/-- C5: for both event-driven adapters and every audio buffer, the audio
entry point processAudio raises (an unsupported-operation error) instead
of returning a DetectionResult; the error is the thrown exception itself,
never an unknown result. -/
theorem event_adapters_reject_audio (audioBuffer : List Nat) :
    TwilioNativeStrategy.processAudio audioBuffer =
      Except.error "Twilio Native AMD processes via webhooks, not direct audio processing"
    ∧ JambonzStrategy.processAudio audioBuffer =
      Except.error "Jambonz AMD processes via SIP webhooks, not direct audio processing"
    ∧ isOkE (TwilioNativeStrategy.processAudio audioBuffer) = false
    ∧ isOkE (JambonzStrategy.processAudio audioBuffer) = false :=
  ⟨rfl, rfl, rfl, rfl⟩

/-- C3 refuted at a concrete input: the Twilio adapter maps an
unrecognized webhook status to outcome undecided with confidence 0.5, not
to outcome unknown as the claimed table row for unrecognized events
states. -/
theorem event_table_twilio_counterexample :
    (TwilioNativeStrategy.parseWebhookResult 0
        ⟨some "amd_event_garbage", none, none, none⟩).result = AmdOutcome.undecided
    ∧ (TwilioNativeStrategy.parseWebhookResult 0
        ⟨some "amd_event_garbage", none, none, none⟩).confidence = 0.5
    ∧ (TwilioNativeStrategy.parseWebhookResult 0
        ⟨some "amd_event_garbage", none, none, none⟩).result ≠ AmdOutcome.unknown := by
  refine ⟨rfl, rfl, ?_⟩
  decide

/-- C3 as amended: both event adapters reproduce the event table for
recognized events (human-speech to human with confidence in [0.80, 0.85],
machine variants to machine with confidence in [0.85, 0.90],
decision-timeout to undecided at 0.50, tone/fax to fax at 0.90), but the
default rows differ by adapter: the Jambonz adapter maps any unrecognized
event to unknown with confidence 0.75, while the Twilio adapter maps any
unrecognized status, including the literal unknown status and a missing
status, to undecided with confidence 0.50. -/
theorem event_table_amended (now : Nat) (ts : Option Nat) (amd : Option String)
    (wc sd cd : Option Rat) (ev : String) :
    ((JambonzStrategy.parseWebhookEvent now ⟨some "amd_human_detected", ts, wc, sd⟩).result
        = AmdOutcome.human
      ∧ (JambonzStrategy.parseWebhookEvent now ⟨some "amd_human_detected", ts, wc, sd⟩).confidence
        = 0.85
      ∧ (0.8 : Rat) ≤ 0.85 ∧ (0.85 : Rat) ≤ 0.85)
    ∧ ((JambonzStrategy.parseWebhookEvent now ⟨some "amd_machine_detected", ts, wc, sd⟩).result
        = AmdOutcome.machine
      ∧ (JambonzStrategy.parseWebhookEvent now ⟨some "amd_machine_detected", ts, wc, sd⟩).confidence
        = 0.88
      ∧ (0.85 : Rat) ≤ 0.88 ∧ (0.88 : Rat) ≤ 0.9)
    ∧ ((JambonzStrategy.parseWebhookEvent now ⟨some "amd_decision_timeout", ts, wc, sd⟩).result
        = AmdOutcome.undecided
      ∧ (JambonzStrategy.parseWebhookEvent now ⟨some "amd_decision_timeout", ts, wc, sd⟩).confidence
        = 0.5)
    ∧ ((JambonzStrategy.parseWebhookEvent now ⟨some "amd_tone_detected", ts, wc, sd⟩).result
        = AmdOutcome.fax
      ∧ (JambonzStrategy.parseWebhookEvent now ⟨some "amd_tone_detected", ts, wc, sd⟩).confidence
        = 0.9)
    ∧ (ev ∉ ["amd_human_detected", "amd_machine_detected", "amd_decision_timeout",
          "amd_tone_detected"] →
        (JambonzStrategy.parseWebhookEvent now ⟨some ev, ts, wc, sd⟩).result = AmdOutcome.unknown
        ∧ (JambonzStrategy.parseWebhookEvent now ⟨some ev, ts, wc, sd⟩).confidence = 0.75)
    ∧ ((JambonzStrategy.parseWebhookEvent now ⟨none, ts, wc, sd⟩).result = AmdOutcome.unknown
      ∧ (JambonzStrategy.parseWebhookEvent now ⟨none, ts, wc, sd⟩).confidence = 0.75)
    ∧ ((TwilioNativeStrategy.parseWebhookResult now ⟨some "human", amd, ts, cd⟩).result
        = AmdOutcome.human
      ∧ (TwilioNativeStrategy.parseWebhookResult now ⟨some "human", amd, ts, cd⟩).confidence
        = 0.8
      ∧ (0.8 : Rat) ≤ 0.8 ∧ (0.8 : Rat) ≤ 0.85)
    ∧ (ev ∈ ["machine_start", "machine_end_beep", "machine_end_silence", "machine_end_other"] →
        (TwilioNativeStrategy.parseWebhookResult now ⟨some ev, amd, ts, cd⟩).result
          = AmdOutcome.machine
        ∧ (TwilioNativeStrategy.parseWebhookResult now ⟨some ev, amd, ts, cd⟩).confidence
          = 0.85
        ∧ (0.85 : Rat) ≤ 0.85 ∧ (0.85 : Rat) ≤ 0.9)
    ∧ ((TwilioNativeStrategy.parseWebhookResult now ⟨some "fax", amd, ts, cd⟩).result
        = AmdOutcome.fax
      ∧ (TwilioNativeStrategy.parseWebhookResult now ⟨some "fax", amd, ts, cd⟩).confidence
        = 0.9)
    ∧ (ev ∉ ["", "human", "machine_start", "machine_end_beep", "machine_end_silence",
          "machine_end_other", "fax"] →
        (TwilioNativeStrategy.parseWebhookResult now ⟨some ev, none, ts, cd⟩).result
          = AmdOutcome.undecided
        ∧ (TwilioNativeStrategy.parseWebhookResult now ⟨some ev, none, ts, cd⟩).confidence
          = 0.5)
    ∧ ((TwilioNativeStrategy.parseWebhookResult now ⟨some "unknown", none, ts, cd⟩).result
        = AmdOutcome.undecided
      ∧ (TwilioNativeStrategy.parseWebhookResult now ⟨some "unknown", none, ts, cd⟩).confidence
        = 0.5)
    ∧ ((TwilioNativeStrategy.parseWebhookResult now ⟨none, none, ts, cd⟩).result
        = AmdOutcome.undecided
      ∧ (TwilioNativeStrategy.parseWebhookResult now ⟨none, none, ts, cd⟩).confidence
        = 0.5) := by
  refine ⟨⟨rfl, rfl, by norm_num, le_refl _⟩,
          ⟨rfl, rfl, by norm_num, by norm_num⟩,
          ⟨rfl, rfl⟩,
          ⟨rfl, rfl⟩,
          ?_,
          ⟨rfl, rfl⟩,
          ⟨rfl, rfl, le_refl _, by norm_num⟩,
          ?_,
          ⟨rfl, rfl⟩,
          ?_,
          ⟨rfl, rfl⟩,
          ⟨rfl, rfl⟩⟩
  · intro h
    have : (JambonzStrategy.parseWebhookEvent now ⟨some ev, ts, wc, sd⟩).result
          = AmdOutcome.unknown
        ∧ (JambonzStrategy.parseWebhookEvent now ⟨some ev, ts, wc, sd⟩).confidence = 0.75 := by
      unfold JambonzStrategy.parseWebhookEvent
      constructor <;>
      · split
        all_goals first
          | rfl
          | (rename_i heq
             injection heq with heq2
             exact absurd (by simp [heq2]) h)
    exact this
  · intro h
    simp only [List.mem_cons, List.mem_singleton, List.not_mem_nil, or_false] at h
    rcases h with h | h | h | h <;> subst h <;> exact ⟨rfl, rfl, le_refl _, by norm_num⟩
  · intro h
    have hne : ¬ ev = "" := by
      intro he
      exact h (by simp [he])
    unfold TwilioNativeStrategy.parseWebhookResult
    simp only [jsOrOptStr, if_neg hne]
    constructor <;>
    · split
      all_goals first
        | rfl
        | (rename_i heq
           injection heq with heq2
           exact absurd (by simp [heq2]) h)

theorem event_table_amended_witness :
    ("garbage_event" ∉ ["amd_human_detected", "amd_machine_detected", "amd_decision_timeout",
        "amd_tone_detected"])
    ∧ ((JambonzStrategy.parseWebhookEvent 0 ⟨some "garbage_event", none, none, none⟩).result
        = AmdOutcome.unknown
      ∧ (JambonzStrategy.parseWebhookEvent 0 ⟨some "garbage_event", none, none, none⟩).confidence
        = 0.75)
    ∧ ("machine_end_beep" ∈ ["machine_start", "machine_end_beep", "machine_end_silence",
        "machine_end_other"])
    ∧ ((TwilioNativeStrategy.parseWebhookResult 0
          ⟨some "machine_end_beep", none, none, none⟩).result = AmdOutcome.machine
      ∧ (TwilioNativeStrategy.parseWebhookResult 0
          ⟨some "machine_end_beep", none, none, none⟩).confidence = 0.85
      ∧ (0.85 : Rat) ≤ 0.85 ∧ (0.85 : Rat) ≤ 0.9)
    ∧ ("garbage_event" ∉ ["", "human", "machine_start", "machine_end_beep",
        "machine_end_silence", "machine_end_other", "fax"])
    ∧ ((TwilioNativeStrategy.parseWebhookResult 0
          ⟨some "garbage_event", none, none, none⟩).result = AmdOutcome.undecided
      ∧ (TwilioNativeStrategy.parseWebhookResult 0
          ⟨some "garbage_event", none, none, none⟩).confidence = 0.5) :=
  ⟨by decide,
   (event_table_amended 0 none none none none none "garbage_event").2.2.2.2.1 (by decide),
   by decide,
   (event_table_amended 0 none none none none none "machine_end_beep").2.2.2.2.2.2.2.1
     (by decide),
   by decide,
   (event_table_amended 0 none none none none none
      "garbage_event").2.2.2.2.2.2.2.2.2.1 (by decide)⟩

/-- HuggingFaceStrategy.handleStream (huggingface.ts lines 94-131): reads
chunks from the stream (a read either yields a chunk or throws),
accumulates them, and calls processAudio on the concatenation once the
accumulated size reaches 48000 * 2 bytes, once it exceeds the 5 MiB
ceiling, or once the stream ends. A throwing read is caught, logged and
re-thrown. The first component of a successful return records the buffer
passed to the single processAudio call. -/
def HuggingFaceStrategy.handleStream (threshold : Rat) (out : FetchOutcome HFResponse)
    (t : Nat) :
    List (Except String (List Nat)) → List Nat →
      Except String (List (List Nat) × AmdDetectionResult)
  | [], acc =>
    Except.ok ([acc], HuggingFaceStrategy.processAudio threshold acc out t)
  | Except.error e :: _, _ => Except.error e
  | Except.ok value :: rest, acc =>
    let acc2 := acc ++ value
    if 48000 * 2 ≤ acc2.length then
      Except.ok ([acc2], HuggingFaceStrategy.processAudio threshold acc2 out t)
    else if 5 * 1024 * 1024 < acc2.length then
      Except.ok ([acc2], HuggingFaceStrategy.processAudio threshold acc2 out t)
    else HuggingFaceStrategy.handleStream threshold out t rest acc2

/-- GeminiStrategy.handleStream (gemini.ts lines 129-162): identical
buffering loop, calling GeminiStrategy.processAudio. -/
def GeminiStrategy.handleStream (model : String) (out : FetchOutcome GeminiBody)
    (t : Nat) :
    List (Except String (List Nat)) → List Nat →
      Except String (List (List Nat) × AmdDetectionResult)
  | [], acc =>
    Except.ok ([acc], GeminiStrategy.processAudio model acc out t)
  | Except.error e :: _, _ => Except.error e
  | Except.ok value :: rest, acc =>
    let acc2 := acc ++ value
    if 48000 * 2 ≤ acc2.length then
      Except.ok ([acc2], GeminiStrategy.processAudio model acc2 out t)
    else if 5 * 1024 * 1024 < acc2.length then
      Except.ok ([acc2], GeminiStrategy.processAudio model acc2 out t)
    else GeminiStrategy.handleStream model out t rest acc2

/-- The minimal chunk sequence the buffering loop consumes when the bytes
already buffered have length n: chunks are taken until the cumulative
length first reaches the 96000-byte decision window. -/
def windowTake (n : Nat) : List (List Nat) → List (List Nat)
  | [] => []
  | c :: rest => c :: (if 96000 ≤ n + c.length then [] else windowTake (n + c.length) rest)

lemma hf_handleStream_ok (threshold : Rat) (out : FetchOutcome HFResponse) (t : Nat) :
    ∀ (chunks : List (List Nat)) (acc : List Nat),
      HuggingFaceStrategy.handleStream threshold out t (chunks.map Except.ok) acc =
        Except.ok ([acc ++ (windowTake acc.length chunks).flatten],
          HuggingFaceStrategy.processAudio threshold
            (acc ++ (windowTake acc.length chunks).flatten) out t) := by
  intro chunks
  induction chunks with
  | nil =>
    intro acc
    simp [HuggingFaceStrategy.handleStream, windowTake]
  | cons c rest ih =>
    intro acc
    simp only [List.map_cons]
    rw [HuggingFaceStrategy.handleStream]
    by_cases h1 : 48000 * 2 ≤ (acc ++ c).length
    · rw [if_pos h1, windowTake,
        if_pos (by simp only [List.length_append] at h1 ⊢; omega)]
      simp
    · rw [if_neg h1,
        if_neg (by simp only [List.length_append] at h1 ⊢; omega),
        ih (acc ++ c), windowTake,
        if_neg (by simp only [List.length_append] at h1 ⊢; omega)]
      simp [List.length_append, List.append_assoc]

lemma gemini_handleStream_ok (model : String) (out : FetchOutcome GeminiBody) (t : Nat) :
    ∀ (chunks : List (List Nat)) (acc : List Nat),
      GeminiStrategy.handleStream model out t (chunks.map Except.ok) acc =
        Except.ok ([acc ++ (windowTake acc.length chunks).flatten],
          GeminiStrategy.processAudio model
            (acc ++ (windowTake acc.length chunks).flatten) out t) := by
  intro chunks
  induction chunks with
  | nil =>
    intro acc
    simp [GeminiStrategy.handleStream, windowTake]
  | cons c rest ih =>
    intro acc
    simp only [List.map_cons]
    rw [GeminiStrategy.handleStream]
    by_cases h1 : 48000 * 2 ≤ (acc ++ c).length
    · rw [if_pos h1, windowTake,
        if_pos (by simp only [List.length_append] at h1 ⊢; omega)]
      simp
    · rw [if_neg h1,
        if_neg (by simp only [List.length_append] at h1 ⊢; omega),
        ih (acc ++ c), windowTake,
        if_neg (by simp only [List.length_append] at h1 ⊢; omega)]
      simp [List.length_append, List.append_assoc]

lemma windowTake_take :
    ∀ (chunks : List (List Nat)) (n : Nat),
      windowTake n chunks = chunks.take (windowTake n chunks).length := by
  intro chunks
  induction chunks with
  | nil => intro n; simp [windowTake]
  | cons c rest ih =>
    intro n
    rw [windowTake]
    by_cases h : 96000 ≤ n + c.length
    · rw [if_pos h]; simp
    · rw [if_neg h]
      rw [List.length_cons, List.take_succ_cons]
      exact congrArg (List.cons c) (ih (n + c.length))

lemma windowTake_all :
    ∀ (chunks : List (List Nat)) (n : Nat),
      n + (chunks.map List.length).sum < 96000 → windowTake n chunks = chunks := by
  intro chunks
  induction chunks with
  | nil => intro n _; simp [windowTake]
  | cons c rest ih =>
    intro n h
    simp only [List.map_cons, List.sum_cons] at h
    rw [windowTake, if_neg (by omega)]
    exact congrArg (List.cons c) (ih (n + c.length) (by omega))

lemma windowTake_min :
    ∀ (chunks : List (List Nat)) (n k : Nat),
      n < 96000 → k < (windowTake n chunks).length →
      n + ((chunks.take k).flatten).length < 96000 := by
  intro chunks
  induction chunks with
  | nil => intro n k hn hk; simp [windowTake] at hk
  | cons c rest ih =>
    intro n k hn hk
    cases k with
    | zero => simpa using hn
    | succ k2 =>
      rw [windowTake] at hk
      by_cases h : 96000 ≤ n + c.length
      · rw [if_pos h] at hk
        simp at hk
      · rw [if_neg h] at hk
        simp only [List.length_cons, Nat.succ_lt_succ_iff] at hk
        have := ih (n + c.length) k2 (by omega) hk
        simp only [List.take_succ_cons, List.flatten_cons, List.length_append]
        omega

lemma windowTake_reach :
    ∀ (chunks : List (List Nat)) (n : Nat),
      n < 96000 → 96000 ≤ n + (chunks.map List.length).sum →
      96000 ≤ n + ((windowTake n chunks).flatten).length := by
  intro chunks
  induction chunks with
  | nil => intro n hn hs; simp at hs; omega
  | cons c rest ih =>
    intro n hn hs
    simp only [List.map_cons, List.sum_cons] at hs
    rw [windowTake]
    by_cases h : 96000 ≤ n + c.length
    · rw [if_pos h]
      simpa using h
    · rw [if_neg h]
      have := ih (n + c.length) (by omega) (by omega)
      simp only [List.flatten_cons, List.length_append]
      omega

/-- C6: for both streaming adapters, handleStream performs exactly one
processAudio call (the singleton buffer trace), on the concatenation of
the chunks read so far. The consumed chunk sequence windowTake 0 chunks
is a prefix of the stream; it is the whole stream when the chunks sum to
less than the 96000-byte decision window; no proper prefix of it reaches
the window (so detection fires at the first chunk that reaches it); it
reaches the window whenever the whole stream does; and detection fires no
later than any chunk that crosses the 5 MiB ceiling. -/
theorem stream_window_single_detect (threshold : Rat) (model : String)
    (outH : FetchOutcome HFResponse) (outG : FetchOutcome GeminiBody) (t : Nat)
    (chunks : List (List Nat)) :
    HuggingFaceStrategy.handleStream threshold outH t (chunks.map Except.ok) [] =
      Except.ok ([(windowTake 0 chunks).flatten],
        HuggingFaceStrategy.processAudio threshold ((windowTake 0 chunks).flatten) outH t)
    ∧ GeminiStrategy.handleStream model outG t (chunks.map Except.ok) [] =
      Except.ok ([(windowTake 0 chunks).flatten],
        GeminiStrategy.processAudio model ((windowTake 0 chunks).flatten) outG t)
    ∧ windowTake 0 chunks = chunks.take (windowTake 0 chunks).length
    ∧ ((chunks.map List.length).sum < 96000 → windowTake 0 chunks = chunks)
    ∧ (∀ k, k < (windowTake 0 chunks).length → ((chunks.take k).flatten).length < 96000)
    ∧ (96000 ≤ (chunks.map List.length).sum → 96000 ≤ ((windowTake 0 chunks).flatten).length)
    ∧ (∀ j, 5 * 1024 * 1024 < ((chunks.take j).flatten).length →
        (windowTake 0 chunks).length ≤ j) := by
  refine ⟨?_, ?_, windowTake_take chunks 0, ?_, ?_, ?_, ?_⟩
  · have h := hf_handleStream_ok threshold outH t chunks []
    simpa using h
  · have h := gemini_handleStream_ok model outG t chunks []
    simpa using h
  · intro h
    exact windowTake_all chunks 0 (by omega)
  · intro k hk
    have := windowTake_min chunks 0 k (by omega) hk
    omega
  · intro h
    have := windowTake_reach chunks 0 (by omega) (by omega)
    omega
  · intro j hj
    by_contra hcon
    push_neg at hcon
    have := windowTake_min chunks 0 j (by omega) hcon
    omega

theorem stream_window_single_detect_witness :
    ((([[1, 2, 3]] : List (List Nat)).map List.length).sum < 96000)
    ∧ windowTake 0 [[1, 2, 3]] = [[1, 2, 3]]
    ∧ (0 < (windowTake 0 [([] : List Nat), [1, 2, 3]]).length)
    ∧ (((([([] : List Nat), [1, 2, 3]] : List (List Nat)).take 0).flatten).length < 96000)
    ∧ (96000 ≤ (([List.replicate 96000 0] : List (List Nat)).map List.length).sum)
    ∧ (96000 ≤ ((windowTake 0 [List.replicate 96000 0]).flatten).length)
    ∧ (5 * 1024 * 1024 <
        ((([List.replicate (6 * 1024 * 1024) 0] : List (List Nat)).take 1).flatten).length)
    ∧ ((windowTake 0 [List.replicate (6 * 1024 * 1024) 0]).length ≤ 1) := by
  have h1 := (stream_window_single_detect 0.7 "gemini-2.5-flash"
    (FetchOutcome.networkError "down") (FetchOutcome.networkError "down") 0
    [[1, 2, 3]])
  have h2 := (stream_window_single_detect 0.7 "gemini-2.5-flash"
    (FetchOutcome.networkError "down") (FetchOutcome.networkError "down") 0
    [([] : List Nat), [1, 2, 3]])
  have h3 := (stream_window_single_detect 0.7 "gemini-2.5-flash"
    (FetchOutcome.networkError "down") (FetchOutcome.networkError "down") 0
    [List.replicate 96000 0])
  have h4 := (stream_window_single_detect 0.7 "gemini-2.5-flash"
    (FetchOutcome.networkError "down") (FetchOutcome.networkError "down") 0
    [List.replicate (6 * 1024 * 1024) 0])
  have hbig : (96000 ≤ (([List.replicate 96000 0] : List (List Nat)).map List.length).sum) := by
    simp only [List.map_cons, List.map_nil, List.sum_cons, List.sum_nil,
      List.length_replicate]
    omega
  have hceil : (5 * 1024 * 1024 <
      ((([List.replicate (6 * 1024 * 1024) 0] : List (List Nat)).take 1).flatten).length) := by
    simp only [List.take_succ_cons, List.take_zero, List.flatten_cons, List.flatten_nil,
      List.append_nil, List.length_replicate]
    omega
  exact ⟨by decide, h1.2.2.2.1 (by decide), by decide,
    h2.2.2.2.2.1 0 (by decide), hbig, h3.2.2.2.2.2.1 hbig, hceil,
    h4.2.2.2.2.2.2 1 hceil⟩

lemma hf_handleStream_error (threshold : Rat) (out : FetchOutcome HFResponse) (t : Nat)
    (e : String) (rest : List (Except String (List Nat))) :
    ∀ (chunks : List (List Nat)) (acc : List Nat),
      acc.length + (chunks.map List.length).sum < 96000 →
      HuggingFaceStrategy.handleStream threshold out t
        (chunks.map Except.ok ++ Except.error e :: rest) acc = Except.error e := by
  intro chunks
  induction chunks with
  | nil =>
    intro acc h
    simp only [List.map_nil, List.nil_append]
    rfl
  | cons c tl ih =>
    intro acc h
    simp only [List.map_cons, List.sum_cons] at h
    simp only [List.map_cons, List.cons_append]
    rw [HuggingFaceStrategy.handleStream,
      if_neg (by simp only [List.length_append]; omega),
      if_neg (by simp only [List.length_append]; omega)]
    exact ih (acc ++ c) (by simp only [List.length_append]; omega)

lemma gemini_handleStream_error (model : String) (out : FetchOutcome GeminiBody) (t : Nat)
    (e : String) (rest : List (Except String (List Nat))) :
    ∀ (chunks : List (List Nat)) (acc : List Nat),
      acc.length + (chunks.map List.length).sum < 96000 →
      GeminiStrategy.handleStream model out t
        (chunks.map Except.ok ++ Except.error e :: rest) acc = Except.error e := by
  intro chunks
  induction chunks with
  | nil =>
    intro acc h
    simp only [List.map_nil, List.nil_append]
    rfl
  | cons c tl ih =>
    intro acc h
    simp only [List.map_cons, List.sum_cons] at h
    simp only [List.map_cons, List.cons_append]
    rw [GeminiStrategy.handleStream,
      if_neg (by simp only [List.length_append]; omega),
      if_neg (by simp only [List.length_append]; omega)]
    exact ih (acc ++ c) (by simp only [List.length_append]; omega)

/-- C7 refuted at a concrete input: an error raised while reading the
stream is re-thrown by handleStream in both streaming adapters, so the
call does not return a DetectionResult at all. -/
theorem stream_read_error_rethrown_counterexample :
    HuggingFaceStrategy.handleStream 0.7 (FetchOutcome.networkError "down") 0
      [Except.error "stream read failed"] [] = Except.error "stream read failed"
    ∧ isOkE (HuggingFaceStrategy.handleStream 0.7 (FetchOutcome.networkError "down") 0
      [Except.error "stream read failed"] []) = false
    ∧ GeminiStrategy.handleStream "gemini-2.5-flash" (FetchOutcome.networkError "down") 0
      [Except.error "stream read failed"] [] = Except.error "stream read failed"
    ∧ isOkE (GeminiStrategy.handleStream "gemini-2.5-flash"
      (FetchOutcome.networkError "down") 0
      [Except.error "stream read failed"] []) = false :=
  ⟨rfl, rfl, rfl, rfl⟩

/-- C7 as amended: failures of the remote detection encountered during
handleStream are swallowed and reported as a normal result with outcome
unknown, confidence 0 and the error text in metadata.error; but an error
raised while reading the stream itself is not swallowed: it is re-thrown
to the caller (shown here for any error read before the decision window
fills). -/
theorem stream_failures_amended (threshold : Rat) (model : String)
    (outH : FetchOutcome HFResponse) (outG : FetchOutcome GeminiBody) (t : Nat)
    (chunks : List (List Nat)) (e : String) (rest : List (Except String (List Nat))) :
    (hfIsFailure outH = true →
      ∃ err, HuggingFaceStrategy.handleStream threshold outH t (chunks.map Except.ok) [] =
        Except.ok ([(windowTake 0 chunks).flatten],
          { result := AmdOutcome.unknown, confidence := 0, detectionTimeMs := t,
            metadata := [("error", MetaValue.str err)] }))
    ∧ (geminiIsFailure outG = true →
      ∃ err, GeminiStrategy.handleStream model outG t (chunks.map Except.ok) [] =
        Except.ok ([(windowTake 0 chunks).flatten],
          { result := AmdOutcome.unknown, confidence := 0, detectionTimeMs := t,
            metadata := [("error", MetaValue.str err)] }))
    ∧ ((chunks.map List.length).sum < 96000 →
        HuggingFaceStrategy.handleStream threshold outH t
          (chunks.map Except.ok ++ Except.error e :: rest) [] = Except.error e)
    ∧ ((chunks.map List.length).sum < 96000 →
        GeminiStrategy.handleStream model outG t
          (chunks.map Except.ok ++ Except.error e :: rest) [] = Except.error e) := by
  refine ⟨?_, ?_, ?_, ?_⟩
  · intro h
    obtain ⟨err, herr⟩ :=
      hf_processAudio_failure threshold ((windowTake 0 chunks).flatten) outH t h
    refine ⟨err, ?_⟩
    have heq := hf_handleStream_ok threshold outH t chunks []
    simp only [List.nil_append, List.length_nil] at heq
    rw [heq, herr]
  · intro h
    obtain ⟨err, herr⟩ :=
      gemini_processAudio_failure model ((windowTake 0 chunks).flatten) outG t h
    refine ⟨err, ?_⟩
    have heq := gemini_handleStream_ok model outG t chunks []
    simp only [List.nil_append, List.length_nil] at heq
    rw [heq, herr]
  · intro h
    exact hf_handleStream_error threshold outH t e rest chunks []
      (by simp only [List.length_nil]; omega)
  · intro h
    exact gemini_handleStream_error model outG t e rest chunks []
      (by simp only [List.length_nil]; omega)

theorem stream_failures_amended_witness :
    hfIsFailure (FetchOutcome.networkError "down") = true
    ∧ (∃ err, HuggingFaceStrategy.handleStream 0.7 (FetchOutcome.networkError "down") 9
        ([[1, 2]].map Except.ok) [] =
        Except.ok ([(windowTake 0 [[1, 2]]).flatten],
          { result := AmdOutcome.unknown, confidence := 0, detectionTimeMs := 9,
            metadata := [("error", MetaValue.str err)] }))
    ∧ geminiIsFailure (FetchOutcome.networkError "down") = true
    ∧ (∃ err, GeminiStrategy.handleStream "gemini-2.5-flash"
        (FetchOutcome.networkError "down") 9 ([[1, 2]].map Except.ok) [] =
        Except.ok ([(windowTake 0 [[1, 2]]).flatten],
          { result := AmdOutcome.unknown, confidence := 0, detectionTimeMs := 9,
            metadata := [("error", MetaValue.str err)] }))
    ∧ (([[1, 2]].map List.length).sum < 96000)
    ∧ HuggingFaceStrategy.handleStream 0.7 (FetchOutcome.networkError "down") 9
        ([[1, 2]].map Except.ok ++ Except.error "boom" :: []) [] = Except.error "boom"
    ∧ GeminiStrategy.handleStream "gemini-2.5-flash" (FetchOutcome.networkError "down") 9
        ([[1, 2]].map Except.ok ++ Except.error "boom" :: []) [] = Except.error "boom" := by
  have h := stream_failures_amended 0.7 "gemini-2.5-flash"
    (FetchOutcome.networkError "down") (FetchOutcome.networkError "down") 9
    [[1, 2]] "boom" []
  exact ⟨rfl, h.1 rfl, rfl, h.2.1 rfl, by decide, h.2.2.1 (by decide), h.2.2.2 (by decide)⟩

/-- Configuration accepted by HuggingFaceStrategy: serviceUrl and
confidenceThreshold, both optional. -/
structure HFConfig where
  serviceUrl : Option String
  confidenceThreshold : Option Rat
deriving DecidableEq, Repr

/-- State held by an initialized HuggingFaceStrategy. -/
structure HFState where
  serviceUrl : String
  confidenceThreshold : Rat
deriving DecidableEq, Repr

/-- The warning produced by the health probe in HuggingFaceStrategy
(huggingface.ts lines 20-32): a rejected fetch carries its own message, a
non-ok response the fixed not-responding message; the warning is logged
and never thrown. -/
def hfHealthWarning (health : FetchOutcome Unit) : Option String :=
  match health with
  | FetchOutcome.networkError msg => some msg
  | FetchOutcome.response ok _ _ =>
    if ok = false then some "HuggingFace service not responding" else none

/-- HuggingFaceStrategy.initialize (huggingface.ts lines 15-33), named
initStrategy here: resolves the service URL from the environment, the
config or the localhost default, resolves the threshold with default 0.7,
and runs the health probe whose failure is only a warning. It never
throws. -/
def HuggingFaceStrategy.initStrategy (envUrl : Option String) (config : HFConfig)
    (health : FetchOutcome Unit) : Except String HFState :=
  let serviceUrl := jsStrOr envUrl (jsStrOr config.serviceUrl "http://localhost:8000")
  let confidenceThreshold := jsNum config.confidenceThreshold 0.7
  let _warning := hfHealthWarning health
  Except.ok ⟨serviceUrl, confidenceThreshold⟩

/-- Configuration accepted by JambonzStrategy. -/
structure JambonzConfig where
  jambonzUrl : Option String
  thresholdWordCount : Option Rat
  decisionTimeoutMs : Option Rat
  toneTimeoutMs : Option Rat
  greetingCompletionTimeoutMs : Option Rat
deriving DecidableEq, Repr

/-- State held by an initialized JambonzStrategy. -/
structure JambonzState where
  thresholdWordCount : Rat
  decisionTimeoutMs : Rat
  toneTimeoutMs : Rat
  greetingCompletionTimeoutMs : Rat
  jambonzUrl : String
deriving DecidableEq, Repr

/-- JambonzStrategy.initialize (huggingface.ts lines 151-165), named
initStrategy here: merges the defaults with the config, resolves the
Jambonz URL from the environment or the config, and throws when the
resolved URL is falsy. -/
def JambonzStrategy.initStrategy (envUrl : Option String) (config : JambonzConfig) :
    Except String JambonzState :=
  let merged : Rat × Rat × Rat × Rat :=
    (config.thresholdWordCount.getD 5, config.decisionTimeoutMs.getD 10000,
     config.toneTimeoutMs.getD 5000, config.greetingCompletionTimeoutMs.getD 3000)
  match jsOrOptStr envUrl config.jambonzUrl with
  | none => Except.error "Jambonz URL not configured"
  | some u =>
    if u = "" then Except.error "Jambonz URL not configured"
    else Except.ok ⟨merged.1, merged.2.1, merged.2.2.1, merged.2.2.2, u⟩

/-- GeminiStrategy.initialize (gemini.ts lines 15-22), named initStrategy
here: resolves the API key from the environment or the config and the
model name with its default, and throws when the resolved key is falsy. -/
def GeminiStrategy.initStrategy (envKey configKey configModel : Option String) :
    Except String (String × String) :=
  let model := jsStrOr configModel "gemini-2.5-flash"
  match jsOrOptStr envKey configKey with
  | none => Except.error "Gemini API key not configured"
  | some k =>
    if k = "" then Except.error "Gemini API key not configured"
    else Except.ok (k, model)

/-- Configuration accepted by TwilioNativeStrategy. -/
structure TwilioConfig where
  machineDetection : Option String
  asyncAmd : Option Bool
  statusCallbackUrl : Option String
  asyncAmdStatusCallback : Option String
  machineDetectionTimeout : Option Rat
  machineDetectionSpeechThreshold : Option Rat
  machineDetectionSpeechEndThreshold : Option Rat
  machineDetectionSilenceTimeout : Option Rat
deriving DecidableEq, Repr

/-- State held by an initialized TwilioNativeStrategy. -/
structure TwilioState where
  machineDetection : String
  asyncAmd : Bool
  asyncAmdStatusCallback : Option String
  machineDetectionTimeout : Rat
  machineDetectionSpeechThreshold : Rat
  machineDetectionSpeechEndThreshold : Rat
  machineDetectionSilenceTimeout : Rat
deriving DecidableEq, Repr

/-- TwilioNativeStrategy.initialize (part_002 lines 14-25), named
initStrategy here: spreads the caller config over the defaults; it never
throws. -/
def TwilioNativeStrategy.initStrategy (config : TwilioConfig) : Except String TwilioState :=
  Except.ok ⟨config.machineDetection.getD "DetectMessageEnd",
    config.asyncAmd.getD true,
    config.asyncAmdStatusCallback.orElse (fun _ => config.statusCallbackUrl),
    config.machineDetectionTimeout.getD 30,
    config.machineDetectionSpeechThreshold.getD 2400,
    config.machineDetectionSpeechEndThreshold.getD 1200,
    config.machineDetectionSilenceTimeout.getD 5000⟩

lemma jsStrOr_falsy (a : Option String) (d : String) (h : jsTruthy a = false) :
    jsStrOr a d = d := by
  cases a with
  | none => rfl
  | some s =>
    simp only [jsTruthy, Bool.not_eq_false', decide_eq_true_eq] at h
    simp [jsStrOr, h]

lemma jam_init_iff (envJ : Option String) (cfgJ : JambonzConfig) :
    ((JambonzStrategy.initStrategy envJ cfgJ = Except.error "Jambonz URL not configured")
      ↔ (jsTruthy envJ = false ∧ jsTruthy cfgJ.jambonzUrl = false))
    ∧ (isOkE (JambonzStrategy.initStrategy envJ cfgJ) = false
      ↔ (jsTruthy envJ = false ∧ jsTruthy cfgJ.jambonzUrl = false)) := by
  obtain ⟨url, c1, c2, c3, c4⟩ := cfgJ
  cases envJ with
  | none =>
    cases url with
    | none => simp [JambonzStrategy.initStrategy, jsOrOptStr, jsTruthy, isOkE]
    | some s =>
      by_cases hs : s = ""
      · subst hs
        simp [JambonzStrategy.initStrategy, jsOrOptStr, jsTruthy, isOkE]
      · simp [JambonzStrategy.initStrategy, jsOrOptStr, jsTruthy, isOkE, hs]
  | some s =>
    by_cases hs : s = ""
    · subst hs
      cases url with
      | none => simp [JambonzStrategy.initStrategy, jsOrOptStr, jsTruthy, isOkE]
      | some u =>
        by_cases hu : u = ""
        · subst hu
          simp [JambonzStrategy.initStrategy, jsOrOptStr, jsTruthy, isOkE]
        · simp [JambonzStrategy.initStrategy, jsOrOptStr, jsTruthy, isOkE, hu]
    · simp [JambonzStrategy.initStrategy, jsOrOptStr, jsTruthy, isOkE, hs]

lemma gemini_init_iff (envG keyG modelG : Option String) :
    ((GeminiStrategy.initStrategy envG keyG modelG
        = Except.error "Gemini API key not configured")
      ↔ (jsTruthy envG = false ∧ jsTruthy keyG = false))
    ∧ (isOkE (GeminiStrategy.initStrategy envG keyG modelG) = false
      ↔ (jsTruthy envG = false ∧ jsTruthy keyG = false)) := by
  cases envG with
  | none =>
    cases keyG with
    | none => simp [GeminiStrategy.initStrategy, jsOrOptStr, jsTruthy, isOkE]
    | some s =>
      by_cases hs : s = ""
      · subst hs
        simp [GeminiStrategy.initStrategy, jsOrOptStr, jsTruthy, isOkE]
      · simp [GeminiStrategy.initStrategy, jsOrOptStr, jsTruthy, isOkE, hs]
  | some s =>
    by_cases hs : s = ""
    · subst hs
      cases keyG with
      | none => simp [GeminiStrategy.initStrategy, jsOrOptStr, jsTruthy, isOkE]
      | some u =>
        by_cases hu : u = ""
        · subst hu
          simp [GeminiStrategy.initStrategy, jsOrOptStr, jsTruthy, isOkE]
        · simp [GeminiStrategy.initStrategy, jsOrOptStr, jsTruthy, isOkE, hu]
    · simp [GeminiStrategy.initStrategy, jsOrOptStr, jsTruthy, isOkE, hs]

/-- C8: a failed liveness probe never makes initialization raise (the
HuggingFace initializer gives the same, successful, outcome for every
probe result, and falls back to the default service URL when both URL
sources are falsy); the Twilio initializer always succeeds; the Jambonz
and Gemini initializers raise their configuration error exactly when the
required key (the Jambonz URL, the Gemini API key) is absent from both
the environment and the config. -/
theorem init_config_requirements (envH : Option String) (cfgH : HFConfig)
    (health health2 : FetchOutcome Unit) (cfgT : TwilioConfig)
    (envJ : Option String) (cfgJ : JambonzConfig) (envG keyG modelG : Option String) :
    HuggingFaceStrategy.initStrategy envH cfgH health
      = HuggingFaceStrategy.initStrategy envH cfgH health2
    ∧ isOkE (HuggingFaceStrategy.initStrategy envH cfgH health) = true
    ∧ (jsTruthy envH = false → jsTruthy cfgH.serviceUrl = false →
        HuggingFaceStrategy.initStrategy envH cfgH health =
          Except.ok ⟨"http://localhost:8000", jsNum cfgH.confidenceThreshold 0.7⟩)
    ∧ isOkE (TwilioNativeStrategy.initStrategy cfgT) = true
    ∧ ((JambonzStrategy.initStrategy envJ cfgJ = Except.error "Jambonz URL not configured")
        ↔ (jsTruthy envJ = false ∧ jsTruthy cfgJ.jambonzUrl = false))
    ∧ (isOkE (JambonzStrategy.initStrategy envJ cfgJ) = false
        ↔ (jsTruthy envJ = false ∧ jsTruthy cfgJ.jambonzUrl = false))
    ∧ ((GeminiStrategy.initStrategy envG keyG modelG
        = Except.error "Gemini API key not configured")
        ↔ (jsTruthy envG = false ∧ jsTruthy keyG = false))
    ∧ (isOkE (GeminiStrategy.initStrategy envG keyG modelG) = false
        ↔ (jsTruthy envG = false ∧ jsTruthy keyG = false)) := by
  refine ⟨rfl, rfl, ?_, rfl, (jam_init_iff envJ cfgJ).1, (jam_init_iff envJ cfgJ).2,
    (gemini_init_iff envG keyG modelG).1, (gemini_init_iff envG keyG modelG).2⟩
  intro h1 h2
  simp only [HuggingFaceStrategy.initStrategy]
  rw [jsStrOr_falsy _ _ h1, jsStrOr_falsy _ _ h2]

theorem init_config_requirements_witness :
    jsTruthy none = false
    ∧ HuggingFaceStrategy.initStrategy none ⟨none, none⟩
        (FetchOutcome.networkError "down") =
        Except.ok ⟨"http://localhost:8000", jsNum none 0.7⟩ :=
  ⟨rfl,
   (init_config_requirements none ⟨none, none⟩ (FetchOutcome.networkError "down")
      (FetchOutcome.response true "OK" ())
      ⟨none, none, none, none, none, none, none, none⟩ none
      ⟨none, none, none, none, none⟩ none none none).2.2.1 rfl rfl⟩

/-- The closed set of strategy instances the factory can construct. -/
inductive AmdStrategyInstance where
  | twilioNative
  | jambonz
  | huggingface
  | gemini
deriving DecidableEq, Repr

/-- createAmdStrategy (amd-strategies.ts lines 82-103): maps each of the
four registered identifiers to its adapter and throws the
unknown-strategy error for anything else. -/
def createAmdStrategy (type : String) : Except String AmdStrategyInstance :=
  match type with
  | "twilio_native" => Except.ok AmdStrategyInstance.twilioNative
  | "jambonz" => Except.ok AmdStrategyInstance.jambonz
  | "huggingface" => Except.ok AmdStrategyInstance.huggingface
  | "gemini" => Except.ok AmdStrategyInstance.gemini
  | _ => Except.error ("Unknown AMD strategy: " ++ type)

/-- C9: the factory fails with the unknown-strategy error, constructing
no instance, for every identifier outside the registered set, and returns
the corresponding adapter instance for each registered identifier. -/
theorem factory_unknown_strategy (type : String) :
    (type ∉ ["twilio_native", "jambonz", "huggingface", "gemini"] →
      createAmdStrategy type = Except.error ("Unknown AMD strategy: " ++ type)
      ∧ isOkE (createAmdStrategy type) = false)
    ∧ createAmdStrategy "twilio_native" = Except.ok AmdStrategyInstance.twilioNative
    ∧ createAmdStrategy "jambonz" = Except.ok AmdStrategyInstance.jambonz
    ∧ createAmdStrategy "huggingface" = Except.ok AmdStrategyInstance.huggingface
    ∧ createAmdStrategy "gemini" = Except.ok AmdStrategyInstance.gemini := by
  refine ⟨?_, rfl, rfl, rfl, rfl⟩
  intro h
  have herr : createAmdStrategy type = Except.error ("Unknown AMD strategy: " ++ type) := by
    unfold createAmdStrategy
    split
    all_goals first
      | rfl
      | exact absurd (by decide) h
  exact ⟨herr, by rw [herr]; rfl⟩

theorem factory_unknown_strategy_witness :
    ("verbex" ∉ ["twilio_native", "jambonz", "huggingface", "gemini"])
    ∧ (createAmdStrategy "verbex" = Except.error ("Unknown AMD strategy: " ++ "verbex")
      ∧ isOkE (createAmdStrategy "verbex") = false) :=
  ⟨by decide, (factory_unknown_strategy "verbex").1 (by decide)⟩
